import Mathlib

/-!
# Verification of the josekit JOSE library core

A shallow embedding of the algorithm framework and compact-serialization
protocol of the josekit repository (JWS compact codec, JWS header claim
validation, RSASSA key acceptance, native AES single-block key wrap, and
the PBES2-HMAC-AESKW key-management algorithm), together with theorems
settling the specification claims about them.

Byte strings are modelled as `List Nat` (each element a byte value).
External collaborators (the base64 crate, serde_json serialization, the
openssl / ring crypto primitives and the RNG) are modelled from the spec,
either as concrete executable functions or as explicit function
parameters; everything else is translated directly from the source.
-/

namespace Josekit

/-- Model of `serde_json::Value` (floating point numbers are not needed by
any claim, so numbers are modelled as integers). -/
inductive Json where
  | null : Json
  | bool (b : Bool) : Json
  | num (n : Int) : Json
  | str (s : String) : Json
  | arr (xs : List Json) : Json
  | obj (fields : List (String × Json)) : Json

/-- Model of `serde_json::Map<String, Value>` as an association list
(key order is irrelevant to every claim; only `get`/`insert`/`remove`
semantics matter). -/
abbrev JsonMap := List (String × Json)

/-- `Map::get`. -/
def mapGet (m : JsonMap) (k : String) : Option Json :=
  match m with
  | [] => none
  | (k', v) :: rest => if k' = k then some v else mapGet rest k

/-- `Map::insert` (replaces an existing entry in place, appends otherwise). -/
def mapInsert (m : JsonMap) (k : String) (v : Json) : JsonMap :=
  match m with
  | [] => [(k, v)]
  | (k', v') :: rest =>
      if k' = k then (k', v) :: rest else (k', v') :: mapInsert rest k v

/-- `Map::remove`. -/
def mapRemove (m : JsonMap) (k : String) : JsonMap :=
  match m with
  | [] => []
  | (k', v') :: rest =>
      if k' = k then rest else (k', v') :: mapRemove rest k

theorem mapGet_mapInsert_self (m : JsonMap) (k : String) (v : Json) :
    mapGet (mapInsert m k v) k = some v := by
  induction m with
  | nil => simp [mapInsert, mapGet]
  | cons hd tl ih =>
      obtain ⟨k', v'⟩ := hd
      unfold mapInsert
      by_cases h : k' = k
      · simp [h, mapGet]
      · simp [h, mapGet, ih]

theorem mapGet_mapInsert_ne (m : JsonMap) (k k' : String) (v : Json)
    (h : k' ≠ k) : mapGet (mapInsert m k v) k' = mapGet m k' := by
  have h' : k ≠ k' := Ne.symm h
  induction m with
  | nil => simp [mapInsert, mapGet, h']
  | cons hd tl ih =>
      obtain ⟨k0, v0⟩ := hd
      unfold mapInsert
      by_cases h0 : k0 = k
      · subst h0
        simp [mapGet, h']
      · simp only [if_neg h0, mapGet]
        by_cases h1 : k0 = k' <;> simp [h1, ih]

theorem mapGet_eq_none_of_not_mem (m : JsonMap) (k : String)
    (h : k ∉ m.map Prod.fst) : mapGet m k = none := by
  induction m with
  | nil => rfl
  | cons hd tl ih =>
      obtain ⟨k0, v0⟩ := hd
      simp only [List.map_cons, List.mem_cons] at h
      push_neg at h
      have hne : k0 ≠ k := Ne.symm h.1
      simp [mapGet, hne, ih h.2]

theorem mapGet_mapRemove_self (m : JsonMap) (k : String)
    (hnodup : (m.map Prod.fst).Nodup) : mapGet (mapRemove m k) k = none := by
  induction m with
  | nil => simp [mapRemove, mapGet]
  | cons hd tl ih =>
      obtain ⟨k0, v0⟩ := hd
      simp only [List.map_cons, List.nodup_cons] at hnodup
      unfold mapRemove
      by_cases h0 : k0 = k
      · subst h0
        simp only [if_pos rfl]
        exact mapGet_eq_none_of_not_mem _ _ hnodup.1
      · simp [if_neg h0, mapGet, h0, ih hnodup.2]

theorem mapGet_mapRemove_ne (m : JsonMap) (k k' : String) (h : k' ≠ k) :
    mapGet (mapRemove m k) k' = mapGet m k' := by
  induction m with
  | nil => simp [mapRemove]
  | cons hd tl ih =>
      obtain ⟨k0, v0⟩ := hd
      unfold mapRemove
      by_cases h0 : k0 = k
      · subst h0
        have h' : k0 ≠ k' := Ne.symm h
        simp [mapGet, h']
      · simp only [if_neg h0, mapGet]
        by_cases h1 : k0 = k' <;> simp [h1, ih]

/-- Model of `JoseError` (`jose_error.rs`); the wrapped `anyhow::Error`
payloads are modelled by their message strings. -/
inductive JoseError where
  | UnsupportedSignatureAlgorithm (msg : String)
  | InvalidJwtFormat (msg : String)
  | InvalidJwkFormat (msg : String)
  | InvalidJwsFormat (msg : String)
  | InvalidJweFormat (msg : String)
  | InvalidKeyFormat (msg : String)
  | InvalidJson (msg : String)
  | InvalidClaim (msg : String)
  | InvalidSignature (msg : String)
  | Generic (msg : String)
  deriving DecidableEq, Repr

/-- Model of `anyhow::Error` as it is used inside the `(|| ... )()`
closures: either a wrapped `JoseError` (from `?` on a josekit call, later
recovered by `downcast`) or a plain message error (from `bail!` or from
`?` on an external library error). -/
inductive AnyErr where
  | jose (e : JoseError)
  | msg (s : String)
  deriving DecidableEq, Repr

end Josekit

namespace Josekit

/-! ## base64url no-pad codec

Modelled from the spec: the external `base64` crate with
`base64::URL_SAFE_NO_PAD`, i.e. the RFC 4648 URL-safe alphabet, no
padding, strict decoding (invalid symbols, a length ≡ 1 mod 4 and
non-zero trailing bits are all rejected). Values are byte lists. -/

/-- The 64 byte values of the base64url alphabet
`A-Z a-z 0-9 - _`, in index order. -/
def b64Alphabet : List Nat :=
  [65, 66, 67, 68, 69, 70, 71, 72, 73, 74, 75, 76, 77, 78, 79, 80,
   81, 82, 83, 84, 85, 86, 87, 88, 89, 90,
   97, 98, 99, 100, 101, 102, 103, 104, 105, 106, 107, 108, 109, 110,
   111, 112, 113, 114, 115, 116, 117, 118, 119, 120, 121, 122,
   48, 49, 50, 51, 52, 53, 54, 55, 56, 57, 45, 95]

/-- Byte value of the character for a 6-bit group. -/
def sextetToByte (n : Nat) : Nat := b64Alphabet.getD n 65

/-- First index of `b` in `l`, counting from `i`. -/
def indexInAux : List Nat → Nat → Nat → Option Nat
  | [], _, _ => none
  | a :: rest, b, i => if a = b then some i else indexInAux rest b (i + 1)

/-- 6-bit group for a byte value, `none` when the byte is not an
alphabet character. -/
def byteToSextet (b : Nat) : Option Nat := indexInAux b64Alphabet b 0

/-- Split bytes into 6-bit groups, three input bytes giving four
groups, with the final partial group padded with zero bits. -/
def encodeChunks : List Nat → List Nat
  | [] => []
  | [b0] => [b0 / 4, b0 % 4 * 16]
  | [b0, b1] => [b0 / 4, b0 % 4 * 16 + b1 / 16, b1 % 16 * 4]
  | b0 :: b1 :: b2 :: rest =>
      b0 / 4 :: (b0 % 4 * 16 + b1 / 16) :: (b1 % 16 * 4 + b2 / 64) ::
        b2 % 64 :: encodeChunks rest

/-- Reassemble bytes from 6-bit groups; strict: a trailing group count
of one and non-zero trailing bits are rejected. -/
def decodeChunks : List Nat → Option (List Nat)
  | [] => some []
  | [_] => none
  | [s0, s1] => if s1 % 16 = 0 then some [s0 * 4 + s1 / 16] else none
  | [s0, s1, s2] =>
      if s2 % 4 = 0 then some [s0 * 4 + s1 / 16, s1 % 16 * 16 + s2 / 4]
      else none
  | s0 :: s1 :: s2 :: s3 :: rest =>
      (decodeChunks rest).map fun tail =>
        (s0 * 4 + s1 / 16) :: (s1 % 16 * 16 + s2 / 4) ::
          (s2 % 4 * 64 + s3) :: tail

/-- `base64::encode_config(_, base64::URL_SAFE_NO_PAD)`. -/
def b64Encode (bs : List Nat) : List Nat :=
  (encodeChunks bs).map sextetToByte

/-- Map a partial function over a list, failing when it fails anywhere. -/
def mapOpt (f : Nat → Option Nat) : List Nat → Option (List Nat)
  | [] => some []
  | a :: rest =>
      match f a, mapOpt f rest with
      | some b, some bs => some (b :: bs)
      | _, _ => none

/-- `base64::decode_config(_, base64::URL_SAFE_NO_PAD)`. -/
def b64Decode (cs : List Nat) : Option (List Nat) :=
  match mapOpt byteToSextet cs with
  | some ss => decodeChunks ss
  | none => none

theorem byteToSextet_sextetToByte {n : Nat} (h : n < 64) :
    byteToSextet (sextetToByte n) = some n := by
  interval_cases n <;> rfl

theorem mapOpt_byteToSextet_map_sextetToByte {ss : List Nat}
    (h : ∀ s ∈ ss, s < 64) :
    mapOpt byteToSextet (ss.map sextetToByte) = some ss := by
  induction ss with
  | nil => rfl
  | cons a rest ih =>
      have ha : a < 64 := h a (by simp)
      simp [mapOpt, byteToSextet_sextetToByte ha,
        ih (fun s hs => h s (by simp [hs]))]

theorem encodeChunks_lt {bs : List Nat} (h : ∀ b ∈ bs, b < 256) :
    ∀ s ∈ encodeChunks bs, s < 64 := by
  induction bs using encodeChunks.induct with
  | case1 => simp [encodeChunks]
  | case2 b0 =>
      have := h b0 (by simp)
      simp only [encodeChunks, List.mem_cons, List.not_mem_nil, or_false]
      rintro s (rfl | rfl) <;> omega
  | case3 b0 b1 =>
      have h0 := h b0 (by simp)
      have h1 := h b1 (by simp)
      simp only [encodeChunks, List.mem_cons, List.not_mem_nil, or_false]
      rintro s (rfl | rfl | rfl) <;> omega
  | case4 b0 b1 b2 rest ih =>
      have h0 := h b0 (by simp)
      have h1 := h b1 (by simp)
      have h2 := h b2 (by simp)
      simp only [encodeChunks, List.mem_cons]
      rintro s (rfl | rfl | rfl | rfl | hs)
      · omega
      · omega
      · omega
      · omega
      · exact ih (fun b hb => h b (by simp [hb])) s hs

theorem decodeChunks_encodeChunks {bs : List Nat} (h : ∀ b ∈ bs, b < 256) :
    decodeChunks (encodeChunks bs) = some bs := by
  induction bs using encodeChunks.induct with
  | case1 => rfl
  | case2 b0 =>
      have h0 := h b0 (by simp)
      simp only [encodeChunks, decodeChunks]
      rw [if_pos (by omega)]
      simp only [Option.some_inj, List.cons.injEq, and_true]
      omega
  | case3 b0 b1 =>
      have h0 := h b0 (by simp)
      have h1 := h b1 (by simp)
      simp only [encodeChunks, decodeChunks]
      rw [if_pos (by omega)]
      simp only [Option.some_inj, List.cons.injEq, and_true]
      constructor <;> omega
  | case4 b0 b1 b2 rest ih =>
      have h0 := h b0 (by simp)
      have h1 := h b1 (by simp)
      have h2 := h b2 (by simp)
      simp only [encodeChunks, decodeChunks,
        ih (fun b hb => h b (by simp [hb])), Option.map_some, Option.map_some',
        Option.some_inj, List.cons.injEq, and_true]
      omega

/-- Decoding inverts encoding on byte lists (strict no-pad roundtrip). -/
theorem b64Decode_b64Encode {bs : List Nat} (h : ∀ b ∈ bs, b < 256) :
    b64Decode (b64Encode bs) = some bs := by
  unfold b64Decode b64Encode
  rw [mapOpt_byteToSextet_map_sextetToByte (encodeChunks_lt h)]
  exact decodeChunks_encodeChunks h

/-- Every byte of an encoding is an alphabet character. -/
theorem b64Encode_mem_alphabet {bs : List Nat} :
    ∀ c ∈ b64Encode bs, c ∈ b64Alphabet := by
  intro c hc
  obtain ⟨s, _, rfl⟩ := List.mem_map.mp hc
  unfold sextetToByte
  by_cases h : s < b64Alphabet.length
  · rw [List.getD_eq_getElem _ _ h]
    exact List.getElem_mem h
  · rw [List.getD_eq_default _ _ (by omega)]
    simp [b64Alphabet]

end Josekit

namespace Josekit

/-! ## JWS header claim validation (`src/jws/jws_header.rs`) -/

/-- Byte list of a string (ASCII claims; the model identifies a string
with its character codes). -/
def strBytes (s : String) : List Nat := s.data.map Char.toNat

/-- Modelled from the spec: `util::is_base64_url_safe_nopad` (the `util`
module is not part of the sources); per §3 binary-valued claims are
base64url-no-pad strings that "must decode successfully". -/
def isBase64UrlSafeNopad (s : String) : Bool := (b64Decode (strBytes s)).isSome

/-- Modelled from the spec: `Jwk::check_map` (file `src/jwk/jwk.rs` is
not part of the sources); per §3/§6 a JWK is a JSON object whose
required `kty` parameter is a string. -/
def Jwk.check_map (fields : List (String × Json)) : Except AnyErr Unit :=
  match mapGet fields "kty" with
  | some (Json.str _) => Except.ok ()
  | _ => Except.error (AnyErr.msg "A parameter kty must be a string.")

/-- `true` on a JSON value equal to the string `"b64"`, mirroring the
`e == "b64"` comparison of a `serde_json::Value` with a `&str`. -/
def isB64Name : Json → Bool
  | Json.str s => s = "b64"
  | _ => false

/-- Body of `JwsHeader::check_claim` (the `(|| ...)()` closure). -/
def checkClaimInner (key : String) (value : Json) : Except AnyErr Unit :=
  if key = "alg" ∨ key = "jku" ∨ key = "x5u" ∨ key = "kid" ∨ key = "typ"
      ∨ key = "cty" ∨ key = "url" then
    match value with
    | Json.str _ => Except.ok ()
    | _ => Except.error (AnyErr.msg "The JWS header claim must be string.")
  else if key = "crit" then
    match value with
    | Json.arr vals =>
        if vals.all (fun v => match v with | Json.str _ => true | _ => false)
        then Except.ok ()
        else Except.error
          (AnyErr.msg "An element of the JWS header claim must be a string.")
    | _ => Except.error (AnyErr.msg "The JWS header claim must be a array.")
  else if key = "x5t" ∨ key = "x5t#S256" ∨ key = "nonce" then
    match value with
    | Json.str s =>
        if isBase64UrlSafeNopad s then Except.ok ()
        else Except.error
          (AnyErr.msg "The JWS header claim must be a base64 string.")
    | _ => Except.error (AnyErr.msg "The JWS header claim must be a string.")
  else if key = "x5c" then
    match value with
    | Json.arr vals =>
        if vals.all (fun v => match v with
            | Json.str s => isBase64UrlSafeNopad s
            | _ => false)
        then Except.ok ()
        else Except.error
          (AnyErr.msg "The JWS header claim must be a base64 string.")
    | _ => Except.error (AnyErr.msg "The JWS header claim must be a array.")
  else if key = "jwk" then
    match value with
    | Json.obj vals => Jwk.check_map vals
    | _ => Except.error (AnyErr.msg "The JWS header claim must be a string.")
  else Except.ok ()

/-- `JwsHeader::check_claim`: the closure's error is wrapped into
`InvalidJweFormat` (sic, as in the source). -/
def check_claim (key : String) (value : Json) : Except JoseError Unit :=
  match checkClaimInner key value with
  | Except.ok () => Except.ok ()
  | Except.error (AnyErr.msg s) => Except.error (JoseError.InvalidJweFormat s)
  | Except.error (AnyErr.jose _) =>
      Except.error (JoseError.InvalidJweFormat "wrapped error")

/-- The `for (key, value) in &map` loop of `JwsHeader::from_map`. -/
def checkAllClaims : JsonMap → Except JoseError Unit
  | [] => Except.ok ()
  | (k, v) :: rest =>
      match check_claim k v with
      | Except.ok () => checkAllClaims rest
      | Except.error e => Except.error e

/-- `JwsHeader::from_map`: per-claim validation, then the `b64`/`crit`
cross-claim check (wrapped into `InvalidJwsFormat`). -/
def from_map (m : JsonMap) : Except JoseError JsonMap :=
  match checkAllClaims m with
  | Except.error e => Except.error e
  | Except.ok () =>
      match mapGet m "b64" with
      | some (Json.bool false) =>
          match mapGet m "crit" with
          | some (Json.arr vals) =>
              if vals.any isB64Name then Except.ok m
              else Except.error (JoseError.InvalidJwsFormat
                "The b64 header claim name must be in critical.")
          | _ => Except.ok m
      | _ => Except.ok m

/-- `JoseHeader::set_claim` for `JwsHeader`. -/
def set_claim (m : JsonMap) (key : String) (value : Option Json) :
    Except JoseError JsonMap :=
  match value with
  | some v =>
      match check_claim key v with
      | Except.ok () => Except.ok (mapInsert m key v)
      | Except.error e => Except.error e
  | none => Except.ok (mapRemove m key)

/-! ## JWS compact serialization (`src/jws.rs`) -/

/-- Continuation byte test for UTF-8. -/
def utf8Cont (c : Nat) : Bool := 128 ≤ c && c ≤ 191

/-- Modelled from the spec: `std::str::from_utf8` validity (standard
UTF-8 wellformedness, external to the repository). -/
def utf8Valid : List Nat → Bool
  | [] => true
  | b :: rest =>
      if b < 128 then utf8Valid rest
      else if 194 ≤ b && b ≤ 223 then
        match rest with
        | c1 :: r => utf8Cont c1 && utf8Valid r
        | _ => false
      else if b = 224 then
        match rest with
        | c1 :: c2 :: r => (160 ≤ c1 && c1 ≤ 191) && utf8Cont c2 && utf8Valid r
        | _ => false
      else if 225 ≤ b && b ≤ 236 then
        match rest with
        | c1 :: c2 :: r => utf8Cont c1 && utf8Cont c2 && utf8Valid r
        | _ => false
      else if b = 237 then
        match rest with
        | c1 :: c2 :: r => (128 ≤ c1 && c1 ≤ 159) && utf8Cont c2 && utf8Valid r
        | _ => false
      else if 238 ≤ b && b ≤ 239 then
        match rest with
        | c1 :: c2 :: r => utf8Cont c1 && utf8Cont c2 && utf8Valid r
        | _ => false
      else if b = 240 then
        match rest with
        | c1 :: c2 :: c3 :: r =>
            (144 ≤ c1 && c1 ≤ 191) && utf8Cont c2 && utf8Cont c3 && utf8Valid r
        | _ => false
      else if 241 ≤ b && b ≤ 243 then
        match rest with
        | c1 :: c2 :: c3 :: r =>
            utf8Cont c1 && utf8Cont c2 && utf8Cont c3 && utf8Valid r
        | _ => false
      else if b = 244 then
        match rest with
        | c1 :: c2 :: c3 :: r =>
            (128 ≤ c1 && c1 ≤ 143) && utf8Cont c2 && utf8Cont c3 && utf8Valid r
        | _ => false
      else false

/-- Decimal digit bytes of an integer. -/
def intBytes (n : Int) : List Nat :=
  if n < 0 then 45 :: (Nat.toDigits 10 (-n).toNat).map Char.toNat
  else (Nat.toDigits 10 n.toNat).map Char.toNat

/-- JSON string literal bytes, escaping backslash and quote. -/
def jsonStrBytes (s : String) : List Nat :=
  34 :: (strBytes s).flatMap (fun c => if c = 34 ∨ c = 92 then [92, c] else [c])
    ++ [34]

mutual

/-- Modelled from the spec: `serde_json::to_string` (external library);
a deterministic JSON rendering whose exact text no claim depends on. -/
def Json.serialize : Json → List Nat
  | Json.null => strBytes "null"
  | Json.bool true => strBytes "true"
  | Json.bool false => strBytes "false"
  | Json.num n => intBytes n
  | Json.str s => jsonStrBytes s
  | Json.arr xs => 91 :: Json.serializeList xs ++ [93]
  | Json.obj fs => 123 :: Json.serializeFields fs ++ [125]

/-- Comma-joined rendering of array elements. -/
def Json.serializeList : List Json → List Nat
  | [] => []
  | [x] => Json.serialize x
  | x :: rest => Json.serialize x ++ 44 :: Json.serializeList rest

/-- Comma-joined rendering of object fields. -/
def Json.serializeFields : List (String × Json) → List Nat
  | [] => []
  | [(k, v)] => jsonStrBytes k ++ 58 :: Json.serialize v
  | (k, v) :: rest =>
      jsonStrBytes k ++ 58 :: Json.serialize v ++ 44 :: Json.serializeFields rest

end

/-- `serde_json::to_string(&header)` for a claim map. -/
def jsonSerializeMap (m : JsonMap) : List Nat := Json.serialize (Json.obj m)

/-- The shared `b64`/`crit` determination at the top of both
`serialize_compact` and `deserialize_compact` (identical nested
`if let`s in the source). -/
def determineB64 (header : JsonMap) : Except AnyErr Bool :=
  match mapGet header "b64" with
  | some (Json.bool false) =>
      match mapGet header "crit" with
      | some (Json.arr vals) =>
          if vals.any isB64Name then Except.ok false
          else Except.error
            (AnyErr.msg "The b64 header claim name must be in critical.")
      | _ => Except.ok true
  | _ => Except.ok true

/-- Final `map_err` of both compact-codec methods: a `JoseError` is
recovered by `downcast`, anything else becomes `InvalidJwtFormat`. -/
def wrapJwt {α : Type} : Except AnyErr α → Except JoseError α
  | Except.ok a => Except.ok a
  | Except.error (AnyErr.jose e) => Except.error e
  | Except.error (AnyErr.msg s) => Except.error (JoseError.InvalidJwtFormat s)

/-- The payload representation of `serialize_compact`: base64url when
`b64` is set, otherwise the raw text after the UTF-8 check and the
dot-free check. -/
def payloadRepresentation (b64 : Bool) (payload : List Nat) :
    Except AnyErr (List Nat) :=
  if b64 then Except.ok (b64Encode payload)
  else if utf8Valid payload then
    if payload.contains 46 then
      Except.error (AnyErr.msg "A JWS payload cannot contain dot.")
    else Except.ok payload
  else Except.error (AnyErr.msg "invalid utf-8 sequence")

/-- Body of `JwsSigner::serialize_compact`; `sign` is the
`JwsSigner::sign` method of the bound signer. -/
def serializeInner (sign : List Nat → Except JoseError (List Nat))
    (header : JsonMap) (payload : List Nat) : Except AnyErr (List Nat) :=
  match determineB64 header with
  | Except.error e => Except.error e
  | Except.ok b64 =>
      match payloadRepresentation b64 payload with
      | Except.error e => Except.error e
      | Except.ok pl =>
          match sign (b64Encode (jsonSerializeMap header) ++ 46 :: pl) with
          | Except.ok signature =>
              Except.ok ((b64Encode (jsonSerializeMap header) ++ 46 :: pl)
                ++ 46 :: b64Encode signature)
          | Except.error e => Except.error (AnyErr.jose e)

/-- `JwsSigner::serialize_compact`. -/
def serialize_compact (sign : List Nat → Except JoseError (List Nat))
    (header : JsonMap) (payload : List Nat) : Except JoseError (List Nat) :=
  wrapJwt (serializeInner sign header payload)

/-- Positions of the `.` bytes (the `char_indices` filter of
`deserialize_compact`; `.` is ASCII so byte and char positions agree). -/
def dotIndicesAux : List Nat → Nat → List Nat
  | [], _ => []
  | b :: rest, i =>
      if b = 46 then i :: dotIndicesAux rest (i + 1)
      else dotIndicesAux rest (i + 1)

/-- Dot positions of the input, from position 0. -/
def dotIndices (input : List Nat) : List Nat := dotIndicesAux input 0

/-- Number of `.` bytes in the input. -/
def countDots (input : List Nat) : Nat := (input.filter (fun b => b = 46)).length

/-- The verifier state used by `deserialize_compact`: the algorithm
name, the configured key id, and the `JwsVerifier::verify` method. -/
structure VerifierModel where
  algName : String
  keyId : Option String
  verify : List Nat → List Nat → Except JoseError Unit

/-- The `alg` header-claim check of `deserialize_compact`. -/
def checkAlg (algName : String) (header : JsonMap) : Except AnyErr Unit :=
  match mapGet header "alg" with
  | some (Json.str v) =>
      if v = algName then Except.ok ()
      else Except.error (AnyErr.msg "The JWT alg header claim is mismatched.")
  | some _ => Except.error (AnyErr.msg "The JWT alg header claim must be a string.")
  | none => Except.error (AnyErr.msg "The JWT alg header claim is required.")

/-- The `expected == actual` comparison of a `&str` with a
`serde_json::Value` in the `kid` check. -/
def kidMatches (expected : String) (actual : Json) : Bool :=
  match actual with
  | Json.str s => s = expected
  | _ => false

/-- The `kid` header-claim check of `deserialize_compact`. -/
def checkKid (keyId : Option String) (header : JsonMap) : Except AnyErr Unit :=
  match keyId, mapGet header "kid" with
  | some expected, some actual =>
      if kidMatches expected actual then Except.ok ()
      else Except.error (AnyErr.msg "The JWT kid header claim is mismatched.")
  | none, none => Except.ok ()
  | _, _ => Except.error (AnyErr.msg "The JWT kid header claim is missing.")

/-- The payload recovery of `deserialize_compact`: base64url decoding
of the segment when `b64` is set, the raw bytes otherwise. -/
def payloadFromSegment (b64 : Bool) (seg : List Nat) :
    Except AnyErr (List Nat) :=
  if b64 then
    match b64Decode seg with
    | some bs => Except.ok bs
    | none => Except.error (AnyErr.msg "invalid base64")
  else Except.ok seg

/-- The payload/signature/verify tail of `deserialize_compact`, after
the header checks have passed and `b64` has been determined. -/
def deserializeStepPayload (v : VerifierModel) (input : List Nat)
    (i0 i1 : Nat) (b64 : Bool) : Except AnyErr (List Nat) :=
  match payloadFromSegment b64 ((input.take i1).drop (i0 + 1)) with
  | Except.error e => Except.error e
  | Except.ok payload =>
  match b64Decode (input.drop (i1 + 1)) with
  | none => Except.error (AnyErr.msg "invalid base64")
  | some signature =>
      match v.verify (input.take i1) signature with
      | Except.ok () => Except.ok payload
      | Except.error e => Except.error (AnyErr.jose e)

/-- The part of `JwsVerifier::deserialize_compact` after the dot-split
check, given the two dot positions `i0 < i1`. -/
def deserializeChecked (v : VerifierModel) (header : JsonMap)
    (input : List Nat) (i0 i1 : Nat) : Except AnyErr (List Nat) :=
  match checkAlg v.algName header with
  | Except.error e => Except.error e
  | Except.ok () =>
  match checkKid v.keyId header with
  | Except.error e => Except.error e
  | Except.ok () =>
  match determineB64 header with
  | Except.error e => Except.error e
  | Except.ok b64 => deserializeStepPayload v input i0 i1 b64

/-- Body of `JwsVerifier::deserialize_compact`. -/
def deserializeInner (v : VerifierModel) (header : JsonMap)
    (input : List Nat) : Except AnyErr (List Nat) :=
  match dotIndices input with
  | [i0, i1] => deserializeChecked v header input i0 i1
  | _ => Except.error
      (AnyErr.msg "The signed JWT must be three parts separated by colon.")

/-- `JwsVerifier::deserialize_compact`. -/
def deserialize_compact (v : VerifierModel) (header : JsonMap)
    (input : List Nat) : Except JoseError (List Nat) :=
  wrapJwt (deserializeInner v header input)


/-! ## Helper lemmas for the compact codec -/

theorem wrapJwt_error {α : Type} (x : AnyErr) :
    ∃ e, wrapJwt (α := α) (Except.error x) = Except.error e := by
  cases x <;> exact ⟨_, rfl⟩

theorem length_dotIndicesAux (l : List Nat) (i : Nat) :
    (dotIndicesAux l i).length = (l.filter (fun b => b = 46)).length := by
  induction l generalizing i with
  | nil => rfl
  | cons b rest ih =>
      unfold dotIndicesAux
      by_cases hb : b = 46 <;>
        simp [hb, List.filter_cons, ih]

theorem length_dotIndices (input : List Nat) :
    (dotIndices input).length = countDots input :=
  length_dotIndicesAux input 0

theorem dotIndices_pair_of_countDots_eq_two {input : List Nat}
    (h : countDots input = 2) : ∃ i0 i1, dotIndices input = [i0, i1] := by
  have hl : (dotIndices input).length = 2 := by rw [length_dotIndices, h]
  match hdi : dotIndices input with
  | [i0, i1] => exact ⟨i0, i1, rfl⟩
  | [] => rw [hdi] at hl; simp at hl
  | [_] => rw [hdi] at hl; simp at hl
  | _ :: _ :: _ :: _ => rw [hdi] at hl; simp at hl

theorem deserialize_compact_eq_checked {v : VerifierModel} {header : JsonMap}
    {input : List Nat} {i0 i1 : Nat} (hdi : dotIndices input = [i0, i1]) :
    deserialize_compact v header input =
      wrapJwt (deserializeChecked v header input i0 i1) := by
  unfold deserialize_compact deserializeInner
  rw [hdi]

/-- Claim C5: an input whose number of dot bytes is not two is rejected
with `InvalidJwtFormat` carrying the dot-split message, for every
verifier and every expected header — so before any claim validation or
signature verification. -/
theorem C5_format_rejection (v : VerifierModel) (header : JsonMap)
    (input : List Nat) (h : countDots input ≠ 2) :
    deserialize_compact v header input = Except.error
      (JoseError.InvalidJwtFormat
        "The signed JWT must be three parts separated by colon.") := by
  have hl : (dotIndices input).length ≠ 2 := by
    rw [length_dotIndices]; exact h
  unfold deserialize_compact deserializeInner
  match hdi : dotIndices input with
  | [i0, i1] => rw [hdi] at hl; simp at hl
  | [] => rfl
  | [_] => rfl
  | _ :: _ :: _ :: _ => rfl

/-- Claim C5 witness at the concrete input `"..."` (three dots). -/
theorem C5_format_rejection_witness :
    countDots [46, 46, 46] ≠ 2 ∧
      deserialize_compact ⟨"RS256", none, fun _ _ => Except.ok ()⟩ []
        [46, 46, 46] = Except.error (JoseError.InvalidJwtFormat
          "The signed JWT must be three parts separated by colon.") :=
  ⟨by decide,
    C5_format_rejection ⟨"RS256", none, fun _ _ => Except.ok ()⟩ []
      [46, 46, 46] (by decide)⟩

theorem checkAlg_error_of_ne {a : String} {header : JsonMap}
    (h : mapGet header "alg" ≠ some (Json.str a)) :
    ∃ m, checkAlg a header = Except.error (AnyErr.msg m) := by
  unfold checkAlg
  match hget : mapGet header "alg" with
  | none => exact ⟨_, rfl⟩
  | some (Json.str s) =>
      have hne : s ≠ a := fun hs => h (by rw [hget, hs])
      refine ⟨"The JWT alg header claim is mismatched.", ?_⟩
      show (if s = a then Except.ok () else Except.error
        (AnyErr.msg "The JWT alg header claim is mismatched.")) = _
      rw [if_neg hne]
  | some Json.null => exact ⟨_, rfl⟩
  | some (Json.bool b) => exact ⟨_, rfl⟩
  | some (Json.num n) => exact ⟨_, rfl⟩
  | some (Json.arr xs) => exact ⟨_, rfl⟩
  | some (Json.obj fs) => exact ⟨_, rfl⟩

/-- Claim C2: on a well-formed three-segment token, when the `alg`
header claim is absent, not a string, or a string different from the
verifier's algorithm name, `deserialize_compact` fails with
`InvalidJwtFormat`; moreover the result is then the same for every
verifier with that algorithm name and key id, whatever its `verify`
function — the underlying `verify` is consulted only when the `alg`
claim equals the algorithm name. -/
theorem C2_alg_confusion_defense (v : VerifierModel) (header : JsonMap)
    (input : List Nat) (hdots : countDots input = 2)
    (halg : mapGet header "alg" ≠ some (Json.str v.algName)) :
    (∃ m, deserialize_compact v header input =
      Except.error (JoseError.InvalidJwtFormat m)) ∧
    ∀ w : VerifierModel, w.algName = v.algName → w.keyId = v.keyId →
      deserialize_compact w header input = deserialize_compact v header input := by
  obtain ⟨i0, i1, hdi⟩ := dotIndices_pair_of_countDots_eq_two hdots
  obtain ⟨m, hca⟩ := checkAlg_error_of_ne halg
  constructor
  · refine ⟨m, ?_⟩
    rw [deserialize_compact_eq_checked hdi]
    unfold deserializeChecked
    rw [hca]
    rfl
  · intro w ha hk
    rw [deserialize_compact_eq_checked hdi, deserialize_compact_eq_checked hdi]
    unfold deserializeChecked
    rw [ha, hca]

/-- Claim C2 witness: concrete mismatching `alg` claim. -/
theorem C2_alg_confusion_defense_witness :
    countDots [46, 46] = 2 ∧
      mapGet [("alg", Json.str "HS256")] "alg" ≠ some (Json.str "RS256") ∧
      ((∃ m, deserialize_compact ⟨"RS256", none, fun _ _ => Except.ok ()⟩
          [("alg", Json.str "HS256")] [46, 46] =
          Except.error (JoseError.InvalidJwtFormat m)) ∧
        ∀ w : VerifierModel, w.algName = "RS256" → w.keyId = none →
          deserialize_compact w [("alg", Json.str "HS256")] [46, 46] =
            deserialize_compact ⟨"RS256", none, fun _ _ => Except.ok ()⟩
              [("alg", Json.str "HS256")] [46, 46]) := by
  have halg : mapGet [("alg", Json.str "HS256")] "alg" ≠ some (Json.str "RS256") := by
    intro hc
    simp only [mapGet] at hc
    rw [if_pos trivial] at hc
    injection hc with h1
    injection h1 with h2
    exact absurd h2 (by decide)
  exact ⟨by decide, halg,
    C2_alg_confusion_defense ⟨"RS256", none, fun _ _ => Except.ok ()⟩
      [("alg", Json.str "HS256")] [46, 46] (by decide) halg⟩


theorem checkAlg_ok {v : VerifierModel} {header : JsonMap}
    (halg : mapGet header "alg" = some (Json.str v.algName)) :
    checkAlg v.algName header = Except.ok () := by
  unfold checkAlg
  rw [halg]
  show (if v.algName = v.algName then Except.ok () else Except.error
    (AnyErr.msg "The JWT alg header claim is mismatched.")) = _
  rw [if_pos rfl]

theorem deserialize_kid_error {v : VerifierModel} {header : JsonMap}
    {input : List Nat} {i0 i1 : Nat} {m : String}
    (hdi : dotIndices input = [i0, i1])
    (hca : checkAlg v.algName header = Except.ok ())
    (hck : checkKid v.keyId header = Except.error (AnyErr.msg m)) :
    deserialize_compact v header input =
      Except.error (JoseError.InvalidJwtFormat m) := by
  rw [deserialize_compact_eq_checked hdi]
  unfold deserializeChecked
  rw [hca, hck]
  rfl

/-- Claim C7: the `kid` check of `deserialize_compact`: with a configured
key id, a missing or unequal `kid` header claim is a format error; with
no configured key id a missing `kid` claim passes the check, while a
present one is a format error (one-present-one-absent always fails). -/
theorem C7_kid_check (v : VerifierModel) (header : JsonMap) (input : List Nat)
    (hdots : countDots input = 2)
    (halg : mapGet header "alg" = some (Json.str v.algName)) :
    ((∀ kid, v.keyId = some kid → mapGet header "kid" = none →
        ∃ m, deserialize_compact v header input =
          Except.error (JoseError.InvalidJwtFormat m)) ∧
     (∀ kid a, v.keyId = some kid → mapGet header "kid" = some a →
        kidMatches kid a = false →
        ∃ m, deserialize_compact v header input =
          Except.error (JoseError.InvalidJwtFormat m)) ∧
     (v.keyId = none → mapGet header "kid" = none →
        checkKid v.keyId header = Except.ok ()) ∧
     (∀ a, v.keyId = none → mapGet header "kid" = some a →
        ∃ m, deserialize_compact v header input =
          Except.error (JoseError.InvalidJwtFormat m))) := by
  obtain ⟨i0, i1, hdi⟩ := dotIndices_pair_of_countDots_eq_two hdots
  have hca := checkAlg_ok halg
  refine ⟨?_, ?_, ?_, ?_⟩
  · intro kid hv hk
    refine ⟨"The JWT kid header claim is missing.",
      deserialize_kid_error hdi hca ?_⟩
    unfold checkKid
    rw [hv, hk]
  · intro kid a hv hk hmm
    refine ⟨"The JWT kid header claim is mismatched.",
      deserialize_kid_error hdi hca ?_⟩
    unfold checkKid
    rw [hv, hk]
    show (if kidMatches kid a then Except.ok () else Except.error
      (AnyErr.msg "The JWT kid header claim is mismatched.")) = _
    simp [hmm]
  · intro hv hk
    unfold checkKid
    rw [hv, hk]
  · intro a hv hk
    refine ⟨"The JWT kid header claim is missing.",
      deserialize_kid_error hdi hca ?_⟩
    unfold checkKid
    rw [hv, hk]

/-- Claim C7 witness: configured key id `"key1"`, header without `kid`. -/
theorem C7_kid_check_witness :
    countDots [46, 46] = 2 ∧
      mapGet [("alg", Json.str "RS256")] "alg" = some (Json.str "RS256") ∧
      ∃ m, deserialize_compact ⟨"RS256", some "key1", fun _ _ => Except.ok ()⟩
        [("alg", Json.str "RS256")] [46, 46] =
          Except.error (JoseError.InvalidJwtFormat m) :=
  ⟨by decide, rfl,
    (C7_kid_check ⟨"RS256", some "key1", fun _ _ => Except.ok ()⟩
      [("alg", Json.str "RS256")] [46, 46] (by decide) rfl).1 "key1" rfl rfl⟩

/-! ## Claims C1 and C9: the b64/crit cross-claim rule -/

/-- Claim C1 counterexample: a claim map containing `b64=false` with no
`crit` entry at all is accepted by `JwsHeader::from_map`, and
`serialize_compact` / `deserialize_compact` succeed on such a header —
the rule is not enforced when `crit` is absent. -/
theorem C1_counterexample :
    from_map [("b64", Json.bool false)] =
      Except.ok [("b64", Json.bool false)] ∧
    (serialize_compact (fun _ => Except.ok [1])
        [("b64", Json.bool false)] []).isOk = true ∧
    from_map [("alg", Json.str "RS256"), ("b64", Json.bool false)] =
      Except.ok [("alg", Json.str "RS256"), ("b64", Json.bool false)] ∧
    (deserialize_compact ⟨"RS256", none, fun _ _ => Except.ok ()⟩
        [("alg", Json.str "RS256"), ("b64", Json.bool false)]
        [65, 65, 46, 65, 65, 46, 65, 65]).isOk = true :=
  ⟨rfl, rfl, rfl, rfl⟩

/-- Claim C1 (amended): when the claim map contains `b64=false` and a
`crit` entry that is an array not listing `"b64"`, `from_map` fails with
an error, and `serialize_compact` and `deserialize_compact` on such a
header also fail (when the `crit` entry is absent entirely, all three
accept the header, treating the payload as base64url-encoded). -/
theorem C1_amended (h : JsonMap) (vals : List Json)
    (hb : mapGet h "b64" = some (Json.bool false))
    (hc : mapGet h "crit" = some (Json.arr vals))
    (hno : vals.any isB64Name = false) :
    (∃ e, from_map h = Except.error e) ∧
    (∀ sign payload, serialize_compact sign h payload = Except.error
      (JoseError.InvalidJwtFormat
        "The b64 header claim name must be in critical.")) ∧
    (∀ v input, ∃ e, deserialize_compact v h input = Except.error e) := by
  have hdet : determineB64 h = Except.error
      (AnyErr.msg "The b64 header claim name must be in critical.") := by
    unfold determineB64
    rw [hb, hc]
    show (if vals.any isB64Name then Except.ok false else Except.error
      (AnyErr.msg "The b64 header claim name must be in critical.")) = _
    simp [hno]
  refine ⟨?_, ?_, ?_⟩
  · unfold from_map
    cases hall : checkAllClaims h with
    | error e => exact ⟨e, rfl⟩
    | ok u =>
        cases u
        rw [hb, hc]
        refine ⟨JoseError.InvalidJwsFormat
          "The b64 header claim name must be in critical.", ?_⟩
        show (if vals.any isB64Name then Except.ok h else Except.error
          (JoseError.InvalidJwsFormat
            "The b64 header claim name must be in critical.")) = _
        simp [hno]
  · intro sign payload
    unfold serialize_compact serializeInner
    rw [hdet]
    rfl
  · intro v input
    unfold deserialize_compact deserializeInner
    match hdi : dotIndices input with
    | [] => exact ⟨_, rfl⟩
    | [_] => exact ⟨_, rfl⟩
    | _ :: _ :: _ :: _ => exact ⟨_, rfl⟩
    | [i0, i1] =>
        unfold deserializeChecked
        cases hca : checkAlg v.algName h with
        | error x => exact wrapJwt_error x
        | ok u =>
            cases u
            cases hck : checkKid v.keyId h with
            | error x => exact wrapJwt_error x
            | ok u2 =>
                cases u2
                rw [hdet]
                exact wrapJwt_error _

/-- Claim C1 (amended) witness: `crit` present but listing only `"x"`. -/
theorem C1_amended_witness :
    (∃ e, from_map [("b64", Json.bool false), ("crit", Json.arr [Json.str "x"])]
      = Except.error e) ∧
    serialize_compact (fun _ => Except.ok [1])
        [("b64", Json.bool false), ("crit", Json.arr [Json.str "x"])] [] =
      Except.error (JoseError.InvalidJwtFormat
        "The b64 header claim name must be in critical.") ∧
    ∃ e, deserialize_compact ⟨"RS256", none, fun _ _ => Except.ok ()⟩
        [("b64", Json.bool false), ("crit", Json.arr [Json.str "x"])]
        [46, 46] = Except.error e := by
  have h := C1_amended
    [("b64", Json.bool false), ("crit", Json.arr [Json.str "x"])]
    [Json.str "x"] rfl rfl (by decide)
  exact ⟨h.1, h.2.1 (fun _ => Except.ok [1]) [],
    h.2.2 ⟨"RS256", none, fun _ _ => Except.ok ()⟩ [46, 46]⟩

/-- Claim C9: `set_claim(name, None)` always succeeds, removes at most
that one claim (all other claims are unchanged), and performs no
cross-claim revalidation: removing `crit` from a header accepted by
`from_map` that still contains `b64=false` succeeds, leaving a map with
`b64=false` and no `crit` entry. -/
theorem C9_set_claim_none (h : JsonMap) (k k' : String) (hne : k' ≠ k) :
    set_claim h k none = Except.ok (mapRemove h k) ∧
    mapGet (mapRemove h k) k' = mapGet h k' ∧
    (from_map [("b64", Json.bool false), ("crit", Json.arr [Json.str "b64"])] =
      Except.ok [("b64", Json.bool false), ("crit", Json.arr [Json.str "b64"])] ∧
     set_claim [("b64", Json.bool false), ("crit", Json.arr [Json.str "b64"])]
        "crit" none = Except.ok [("b64", Json.bool false)] ∧
     mapGet [("b64", Json.bool false)] "b64" = some (Json.bool false) ∧
     mapGet [("b64", Json.bool false)] "crit" = none) :=
  ⟨rfl, mapGet_mapRemove_ne h k k' hne, rfl, rfl, rfl, rfl⟩

/-- Claim C9 witness: the concrete mutation. -/
theorem C9_set_claim_none_witness :
    set_claim [("b64", Json.bool false), ("crit", Json.arr [Json.str "b64"])]
        "crit" none =
      Except.ok (mapRemove
        [("b64", Json.bool false), ("crit", Json.arr [Json.str "b64"])]
        "crit") ∧
    mapGet (mapRemove
        [("b64", Json.bool false), ("crit", Json.arr [Json.str "b64"])]
        "crit") "b64" =
      mapGet [("b64", Json.bool false), ("crit", Json.arr [Json.str "b64"])]
        "b64" ∧
    (from_map [("b64", Json.bool false), ("crit", Json.arr [Json.str "b64"])] =
      Except.ok [("b64", Json.bool false), ("crit", Json.arr [Json.str "b64"])] ∧
     set_claim [("b64", Json.bool false), ("crit", Json.arr [Json.str "b64"])]
        "crit" none = Except.ok [("b64", Json.bool false)] ∧
     mapGet [("b64", Json.bool false)] "b64" = some (Json.bool false) ∧
     mapGet [("b64", Json.bool false)] "crit" = none) :=
  C9_set_claim_none
    [("b64", Json.bool false), ("crit", Json.arr [Json.str "b64"])]
    "crit" "b64" (by decide)


/-! ## Native AES key wrap (`src/jwe/alg/native_aeskw.rs`) -/

/-- Outcome of a call that may return, error, or panic; Rust panics
(from `GenericArray` length mismatches) are modelled explicitly. -/
inductive Outcome (α : Type) where
  | ok (a : α)
  | err (e : JoseError)
  | panic (msg : String)

/-- `encrypt_aeskw`. The `aes` crate's block cipher is the external
parameter `aesEnc` (key length, key, block → block);
`GenericArray::clone_from_slice(data)` is evaluated before the
key-length match and panics unless `data` is exactly 16 bytes, and
`GenericArray::from_slice(&pk)` panics unless `pk` has the selected
key length. -/
def encrypt_aeskw (aesEnc : Nat → List Nat → List Nat → List Nat)
    (key_length : Nat) (pk data : List Nat) : Outcome (List Nat) :=
  if data.length ≠ 16 then
    Outcome.panic "GenericArray::clone_from_slice: slice length mismatch"
  else if key_length = 16 then
    if pk.length ≠ 16 then
      Outcome.panic "GenericArray::from_slice: slice length mismatch"
    else Outcome.ok (aesEnc 16 pk data)
  else if key_length = 24 then
    if pk.length ≠ 24 then
      Outcome.panic "GenericArray::from_slice: slice length mismatch"
    else Outcome.ok (aesEnc 24 pk data)
  else if key_length = 32 then
    if pk.length ≠ 32 then
      Outcome.panic "GenericArray::from_slice: slice length mismatch"
    else Outcome.ok (aesEnc 32 pk data)
  else Outcome.err (JoseError.Generic "Unsupported key length.")

/-- `decrypt_aeskw`, structurally identical with the block decryption
primitive. -/
def decrypt_aeskw (aesDec : Nat → List Nat → List Nat → List Nat)
    (key_length : Nat) (pk data : List Nat) : Outcome (List Nat) :=
  if data.length ≠ 16 then
    Outcome.panic "GenericArray::clone_from_slice: slice length mismatch"
  else if key_length = 16 then
    if pk.length ≠ 16 then
      Outcome.panic "GenericArray::from_slice: slice length mismatch"
    else Outcome.ok (aesDec 16 pk data)
  else if key_length = 24 then
    if pk.length ≠ 24 then
      Outcome.panic "GenericArray::from_slice: slice length mismatch"
    else Outcome.ok (aesDec 24 pk data)
  else if key_length = 32 then
    if pk.length ≠ 32 then
      Outcome.panic "GenericArray::from_slice: slice length mismatch"
    else Outcome.ok (aesDec 32 pk data)
  else Outcome.err (JoseError.Generic "Unsupported key length.")

/-- Claim C4: contrary to the claim (and §4.5/§8 of the spec), a data
slice that is not exactly 16 bytes makes `encrypt_aeskw`/`decrypt_aeskw`
panic in `GenericArray::clone_from_slice` — evaluated before the
key-length match — instead of returning the Generic configuration
error; the Generic error is produced only when the data is a full
16-byte block and the key length is unsupported. -/
theorem C4_aeskw_panics :
    encrypt_aeskw (fun _ _ b => b) 16 (List.replicate 16 0) [0] =
      Outcome.panic "GenericArray::clone_from_slice: slice length mismatch" ∧
    decrypt_aeskw (fun _ _ b => b) 16 (List.replicate 16 0) [0] =
      Outcome.panic "GenericArray::clone_from_slice: slice length mismatch" ∧
    encrypt_aeskw (fun _ _ b => b) 20 (List.replicate 16 0)
        (List.replicate 16 0) =
      Outcome.err (JoseError.Generic "Unsupported key length.") ∧
    decrypt_aeskw (fun _ _ b => b) 20 (List.replicate 16 0)
        (List.replicate 16 0) =
      Outcome.err (JoseError.Generic "Unsupported key length.") :=
  ⟨rfl, rfl, rfl, rfl⟩

/-! ## RSASSA key acceptance (`src/jws/alg/rsassa.rs`) -/

/-- The RSASSA algorithm variants. -/
inductive RsassaJwsAlgorithm where
  | RS256
  | RS384
  | RS512
  deriving DecidableEq, Repr

/-- `RsassaJwsAlgorithm::name`. -/
def RsassaJwsAlgorithm.name : RsassaJwsAlgorithm → String
  | .RS256 => "RS256"
  | .RS384 => "RS384"
  | .RS512 => "RS512"

/-- Model of an openssl `PKey` holding an RSA key: only the modulus bit
length is relevant to the claims. -/
structure RsaPKey where
  modulusBits : Nat
  deriving DecidableEq, Repr

/-- Model of openssl `Rsa::size()` (external primitive): the modulus
size in bytes, i.e. `ceil(modulus_bits / 8)`. -/
def rsaSize (k : RsaPKey) : Nat := (k.modulusBits + 7) / 8

/-- `RsassaJwsAlgorithm::check_key`: rejects when `rsa.size() * 8 < 2048`. -/
def rsassa_check_key (k : RsaPKey) : Except AnyErr Unit :=
  if rsaSize k * 8 < 2048 then
    Except.error (AnyErr.msg "key length must be 2048 or more.")
  else Except.ok ()

/-- Rendering of a model `anyhow::Error` into the message kept by a
wrapping `JoseError`. -/
def renderAny : AnyErr → String
  | AnyErr.msg s => s
  | AnyErr.jose _ => "wrapped error"

/-- The `.map_err(|err| JoseError::InvalidKeyFormat(err))` wrapper used
by every RSASSA and PBES2 constructor (and by `Pbes2HmacJweEncrypter::encrypt`):
no downcast, every failure becomes `InvalidKeyFormat`. -/
def wrapKeyFormat {α : Type} : Except AnyErr α → Except JoseError α
  | Except.ok a => Except.ok a
  | Except.error x => Except.error (JoseError.InvalidKeyFormat (renderAny x))

/-- `RsassaJwsAlgorithm::keypair_from_der`: the PKCS#8 detection and
wrapping plus `PKey::private_key_from_der` (DER machinery and openssl,
outside the shown sources) are the `parseDer` parameter; the subsequent
`check_key` and the `InvalidKeyFormat` wrapping are from the source. -/
def keypair_from_der (parseDer : List Nat → Except AnyErr RsaPKey)
    (input : List Nat) : Except JoseError RsaPKey :=
  wrapKeyFormat (
    match parseDer input with
    | Except.error e => Except.error e
    | Except.ok k =>
        match rsassa_check_key k with
        | Except.error e => Except.error e
        | Except.ok () => Except.ok k)

/-- A bound RSASSA signer. -/
structure RsassaJwsSigner where
  algorithm : RsassaJwsAlgorithm
  private_key : RsaPKey
  key_id : Option String

/-- A bound RSASSA verifier. -/
structure RsassaJwsVerifier where
  algorithm : RsassaJwsAlgorithm
  public_key : RsaPKey
  key_id : Option String

/-- `RsassaJwsAlgorithm::signer_from_der`. -/
def signer_from_der (alg : RsassaJwsAlgorithm)
    (parseDer : List Nat → Except AnyErr RsaPKey) (input : List Nat) :
    Except JoseError RsassaJwsSigner :=
  match keypair_from_der parseDer input with
  | Except.ok k => Except.ok ⟨alg, k, none⟩
  | Except.error e => Except.error e

/-- `RsassaJwsAlgorithm::verifier_from_der` (same detection/parse/check
pipeline on the public key, wrapped into `InvalidKeyFormat`). -/
def verifier_from_der (alg : RsassaJwsAlgorithm)
    (parseDer : List Nat → Except AnyErr RsaPKey) (input : List Nat) :
    Except JoseError RsassaJwsVerifier :=
  wrapKeyFormat (
    match parseDer input with
    | Except.error e => Except.error e
    | Except.ok k =>
        match rsassa_check_key k with
        | Except.error e => Except.error e
        | Except.ok () => Except.ok ⟨alg, k, none⟩)

/-- Claim C8 counterexample: a 2047-bit modulus is below 2048 bits, yet
`signer_from_der` and `verifier_from_der` accept it — `rsa.size()` is
the modulus length in whole bytes, so `size() * 8` rounds 2047 up
to 2048. -/
theorem C8_counterexample :
    2047 < 2048 ∧
    (signer_from_der RsassaJwsAlgorithm.RS256
        (fun _ => Except.ok ⟨2047⟩) []).isOk = true ∧
    (verifier_from_der RsassaJwsAlgorithm.RS256
        (fun _ => Except.ok ⟨2047⟩) []).isOk = true :=
  ⟨by decide, rfl, rfl⟩

/-- Claim C8 (amended): an RSA key whose modulus is at most 2040 bits is
rejected by `signer_from_der`/`verifier_from_der` with
`InvalidKeyFormat`; the size check passes for any modulus of 2041 bits
or more — in particular for all of 2048 bits or more — because the
comparison multiplies the whole-byte modulus size by 8. -/
theorem C8_key_size_floor (alg : RsassaJwsAlgorithm)
    (parseDer : List Nat → Except AnyErr RsaPKey) (input : List Nat)
    (k : RsaPKey) (hp : parseDer input = Except.ok k) :
    (k.modulusBits ≤ 2040 →
      signer_from_der alg parseDer input = Except.error
        (JoseError.InvalidKeyFormat "key length must be 2048 or more.") ∧
      verifier_from_der alg parseDer input = Except.error
        (JoseError.InvalidKeyFormat "key length must be 2048 or more.")) ∧
    (2041 ≤ k.modulusBits →
      rsassa_check_key k = Except.ok () ∧
      signer_from_der alg parseDer input = Except.ok ⟨alg, k, none⟩ ∧
      verifier_from_der alg parseDer input = Except.ok ⟨alg, k, none⟩) := by
  constructor
  · intro hsmall
    have hchk : rsassa_check_key k = Except.error
        (AnyErr.msg "key length must be 2048 or more.") := by
      unfold rsassa_check_key rsaSize
      rw [if_pos (by omega)]
    constructor
    · unfold signer_from_der keypair_from_der
      rw [hp]
      show (match wrapKeyFormat (match rsassa_check_key k with
          | Except.error e => Except.error e
          | Except.ok () => Except.ok k) with
        | Except.ok k2 => Except.ok
            ({ algorithm := alg, private_key := k2, key_id := none } :
              RsassaJwsSigner)
        | Except.error e => Except.error e) = _
      rw [hchk]
      rfl
    · unfold verifier_from_der
      rw [hp]
      show wrapKeyFormat (match rsassa_check_key k with
        | Except.error e => Except.error e
        | Except.ok () => Except.ok
            ({ algorithm := alg, public_key := k, key_id := none } :
              RsassaJwsVerifier)) = _
      rw [hchk]
      rfl
  · intro hbig
    have hchk : rsassa_check_key k = Except.ok () := by
      unfold rsassa_check_key rsaSize
      rw [if_neg (by omega)]
    refine ⟨hchk, ?_, ?_⟩
    · unfold signer_from_der keypair_from_der
      rw [hp]
      show (match wrapKeyFormat (match rsassa_check_key k with
          | Except.error e => Except.error e
          | Except.ok () => Except.ok k) with
        | Except.ok k2 => Except.ok
            ({ algorithm := alg, private_key := k2, key_id := none } :
              RsassaJwsSigner)
        | Except.error e => Except.error e) = _
      rw [hchk]
      rfl
    · unfold verifier_from_der
      rw [hp]
      show wrapKeyFormat (match rsassa_check_key k with
        | Except.error e => Except.error e
        | Except.ok () => Except.ok
            ({ algorithm := alg, public_key := k, key_id := none } :
              RsassaJwsVerifier)) = _
      rw [hchk]
      rfl

/-- Claim C8 (amended) witness: rejection at 1024 bits, acceptance at
2048 bits. -/
theorem C8_key_size_floor_witness :
    (signer_from_der RsassaJwsAlgorithm.RS256
        (fun _ => Except.ok ⟨1024⟩) [] = Except.error
      (JoseError.InvalidKeyFormat "key length must be 2048 or more.") ∧
      verifier_from_der RsassaJwsAlgorithm.RS256
        (fun _ => Except.ok ⟨1024⟩) [] = Except.error
      (JoseError.InvalidKeyFormat "key length must be 2048 or more.")) ∧
    rsassa_check_key ⟨2048⟩ = Except.ok () :=
  ⟨(C8_key_size_floor RsassaJwsAlgorithm.RS256
      (fun _ => Except.ok ⟨1024⟩) [] ⟨1024⟩ rfl).1 (by decide),
    ((C8_key_size_floor RsassaJwsAlgorithm.RS256
      (fun _ => Except.ok ⟨2048⟩) [] ⟨2048⟩ rfl).2 (by decide)).1⟩


/-! ## PBES2-HMAC-AESKW (`src/jwe/alg/pbes2_hmac_aeskw.rs`) -/

/-- `HashAlgorithm` (`src/util/hash_algorithm.rs`). -/
inductive HashAlgorithm where
  | Sha1
  | Sha256
  | Sha384
  | Sha512
  deriving DecidableEq, Repr

/-- `HashAlgorithm::output_len`. -/
def HashAlgorithm.output_len : HashAlgorithm → Nat
  | .Sha1 => 20
  | .Sha256 => 32
  | .Sha384 => 48
  | .Sha512 => 64

/-- The PBES2 algorithm variants. -/
inductive Pbes2HmacJweAlgorithm where
  | Pbes2HS256A128Kw
  | Pbes2HS384A192Kw
  | Pbes2HS512A256Kw
  deriving DecidableEq, Repr

/-- `Pbes2HmacJweAlgorithm::name`. -/
def Pbes2HmacJweAlgorithm.name : Pbes2HmacJweAlgorithm → String
  | .Pbes2HS256A128Kw => "PBES2-HS256+A128KW"
  | .Pbes2HS384A192Kw => "PBES2-HS384+A192KW"
  | .Pbes2HS512A256Kw => "PBES2-HS512+A256KW"

/-- `Pbes2HmacJweAlgorithm::hash_algorithm`. -/
def Pbes2HmacJweAlgorithm.hash_algorithm :
    Pbes2HmacJweAlgorithm → HashAlgorithm
  | .Pbes2HS256A128Kw => HashAlgorithm.Sha256
  | .Pbes2HS384A192Kw => HashAlgorithm.Sha384
  | .Pbes2HS512A256Kw => HashAlgorithm.Sha512

/-- `Pbes2HmacJweAlgorithm::derived_key_len`. -/
def Pbes2HmacJweAlgorithm.derived_key_len : Pbes2HmacJweAlgorithm → Nat
  | .Pbes2HS256A128Kw => 16
  | .Pbes2HS384A192Kw => 24
  | .Pbes2HS512A256Kw => 32

/-- `Pbes2HmacJweEncrypter` (the bound password plus configuration). -/
structure Pbes2HmacJweEncrypter where
  algorithm : Pbes2HmacJweAlgorithm
  private_key : List Nat
  salt_len : Nat
  iter_count : Nat
  key_id : Option String

/-- `Pbes2HmacJweDecrypter`. -/
structure Pbes2HmacJweDecrypter where
  algorithm : Pbes2HmacJweAlgorithm
  private_key : List Nat
  key_id : Option String

/-- `Pbes2HmacJweAlgorithm::encrypter_from_bytes`. -/
def encrypter_from_bytes (alg : Pbes2HmacJweAlgorithm) (input : List Nat) :
    Except JoseError Pbes2HmacJweEncrypter :=
  if input.length = 0 then
    Except.error (JoseError.InvalidKeyFormat "The key size must not be empty.")
  else Except.ok ⟨alg, input, 8, 1000, none⟩

/-- `Pbes2HmacJweAlgorithm::decrypter_from_bytes`. -/
def decrypter_from_bytes (alg : Pbes2HmacJweAlgorithm) (input : List Nat) :
    Except JoseError Pbes2HmacJweDecrypter :=
  if input.length = 0 then
    Except.error (JoseError.InvalidKeyFormat "The key size must not be empty.")
  else Except.ok ⟨alg, input, none⟩

/-- String from byte values (used to write the base64 text of the
generated salt into the header). -/
def bytesToString (bs : List Nat) : String := String.mk (bs.map Char.ofNat)

/-- The salt-input derivation `UTF8(algorithm-name) || 0x00 || p2s`
shared by encrypt and decrypt. -/
def pbes2Salt (alg : Pbes2HmacJweAlgorithm) (p2s : List Nat) : List Nat :=
  strBytes alg.name ++ 0 :: p2s

/-- `AesKey::new_encrypt` / `new_decrypt` (openssl, external): succeeds
exactly for AES key lengths 16, 24 and 32 bytes. -/
def aesKeyLenOk (k : List Nat) : Bool :=
  k.length = 16 || k.length = 24 || k.length = 32

/-- The `p2s` resolution step of `Pbes2HmacJweEncrypter::encrypt`:
read and validate a present `p2s` claim, or generate a salt
(`randSalt`, the bytes produced by `util::rand_bytes(self.salt_len)`)
and write it back into the header. -/
def pbes2ResolveP2s (randSalt : List Nat) (header : JsonMap) :
    Except AnyErr (List Nat × JsonMap) :=
  match mapGet header "p2s" with
  | some (Json.str val) =>
      match b64Decode (strBytes val) with
      | none => Except.error (AnyErr.msg "invalid base64")
      | some p2s =>
          if p2s.length < 8 then
            Except.error
              (AnyErr.msg "The decoded value of p2s header claim must be 8 or more.")
          else Except.ok (p2s, header)
  | some _ => Except.error (AnyErr.msg "The p2s header claim must be string.")
  | none =>
      Except.ok (randSalt,
        mapInsert header "p2s" (Json.str (bytesToString (b64Encode randSalt))))

/-- The `p2c` resolution step of `Pbes2HmacJweEncrypter::encrypt`:
read a present `p2c` claim through `Number::as_u64`, or default to the
configured iteration count and write it back. -/
def pbes2ResolveP2c (iter_count : Nat) (header : JsonMap) :
    Except AnyErr (Nat × JsonMap) :=
  match mapGet header "p2c" with
  | some (Json.num n) =>
      if 0 ≤ n then Except.ok (n.toNat, header)
      else Except.error (AnyErr.msg "Overflow u64 value.")
  | some _ => Except.error (AnyErr.msg "The apv header claim must be string.")
  | none =>
      Except.ok (iter_count,
        mapInsert header "p2c" (Json.num (Int.ofNat iter_count)))

/-- The `p2s` reading step of `Pbes2HmacJweDecrypter::decrypt` (both
claims are required on this side). -/
def pbes2ReadP2s (header : JsonMap) : Except AnyErr (List Nat) :=
  match mapGet header "p2s" with
  | some (Json.str val) =>
      match b64Decode (strBytes val) with
      | none => Except.error (AnyErr.msg "invalid base64")
      | some p2s =>
          if p2s.length < 8 then
            Except.error
              (AnyErr.msg "The decoded value of p2s header claim must be 8 or more.")
          else Except.ok p2s
  | some _ => Except.error (AnyErr.msg "The p2s header claim must be string.")
  | none => Except.error (AnyErr.msg "The p2s header claim is required.")

/-- The `p2c` reading step of `Pbes2HmacJweDecrypter::decrypt` (the
message for a non-number claim is the source's verbatim — and
misnamed — text). -/
def pbes2ReadP2c (header : JsonMap) : Except AnyErr Nat :=
  match mapGet header "p2c" with
  | some (Json.num n) =>
      if 0 ≤ n then Except.ok n.toNat
      else Except.error (AnyErr.msg "Overflow u64 value.")
  | some _ => Except.error (AnyErr.msg "The p2s header claim must be string.")
  | none => Except.error (AnyErr.msg "The p2c header claim is required.")

/-- Body of `Pbes2HmacJweEncrypter::encrypt`. External collaborators are
explicit parameters: `pbkdf2` is `openssl::pkcs5::pbkdf2_hmac`
(password, salt, iterations, digest, requested output length — the
output buffer has exactly the requested length), `wrap` is
`openssl::aes::wrap_key` with the default IV (`none` models a wrap
failure; the output buffer of `key_len + 8` bytes is truncated to the
count actually written, i.e. exactly the wrap output), and
`randSalt`/`randKey` are the bytes produced by the two
`util::rand_bytes` calls (`rand_bytes(self.salt_len)` and
`rand_bytes(key_len)`). The JWE header is a claim map (`JweHeader` is
not among the sources; modelled from the spec as the same open
claim-map structure whose `set_claim` accepts the claims written here);
the mutated header is returned alongside the generated key and its
wrapped form. This is the derivation-and-wrap step after `p2s`
resolution. -/
def pbes2EncryptStep2
    (pbkdf2 : List Nat → List Nat → Nat → HashAlgorithm → Nat → List Nat)
    (wrap : List Nat → List Nat → Option (List Nat)) (randKey : List Nat)
    (e : Pbes2HmacJweEncrypter) (p2s : List Nat) (header1 : JsonMap) :
    Except AnyErr (List Nat × Option (List Nat) × JsonMap) :=
  match pbes2ResolveP2c e.iter_count header1 with
  | Except.error e0 => Except.error e0
  | Except.ok (p2c, header2) =>
  if aesKeyLenOk (pbkdf2 e.private_key (pbes2Salt e.algorithm p2s) p2c
      e.algorithm.hash_algorithm e.algorithm.derived_key_len) then
    match wrap (pbkdf2 e.private_key (pbes2Salt e.algorithm p2s) p2c
        e.algorithm.hash_algorithm e.algorithm.derived_key_len) randKey with
    | none => Except.error (AnyErr.msg "Failed to wrap a key.")
    | some encrypted_key =>
        Except.ok (randKey, some encrypted_key,
          mapInsert header2 "alg" (Json.str e.algorithm.name))
  else Except.error (AnyErr.msg "Failed to set a encryption key.")

/-- The two-step body assembled: resolve `p2s`, then derive and wrap. -/
def pbes2EncryptInner
    (pbkdf2 : List Nat → List Nat → Nat → HashAlgorithm → Nat → List Nat)
    (wrap : List Nat → List Nat → Option (List Nat))
    (randSalt randKey : List Nat)
    (e : Pbes2HmacJweEncrypter) (header : JsonMap) (key_len : Nat) :
    Except AnyErr (List Nat × Option (List Nat) × JsonMap) :=
  match pbes2ResolveP2s randSalt header with
  | Except.error e0 => Except.error e0
  | Except.ok (p2s, header1) =>
      pbes2EncryptStep2 pbkdf2 wrap randKey e p2s header1

/-- `Pbes2HmacJweEncrypter::encrypt` (the closure's error is wrapped
into `InvalidKeyFormat`, with no downcast). -/
def pbes2_encrypt
    (pbkdf2 : List Nat → List Nat → Nat → HashAlgorithm → Nat → List Nat)
    (wrap : List Nat → List Nat → Option (List Nat))
    (randSalt randKey : List Nat)
    (e : Pbes2HmacJweEncrypter) (header : JsonMap) (key_len : Nat) :
    Except JoseError (List Nat × Option (List Nat) × JsonMap) :=
  wrapKeyFormat (pbes2EncryptInner pbkdf2 wrap randSalt randKey e header key_len)

/-- The `.map_err(|err| JoseError::InvalidJweFormat(err))` wrapper of
`Pbes2HmacJweDecrypter::decrypt`. -/
def wrapJweFormat {α : Type} : Except AnyErr α → Except JoseError α
  | Except.ok a => Except.ok a
  | Except.error x => Except.error (JoseError.InvalidJweFormat (renderAny x))

/-- Body of `Pbes2HmacJweDecrypter::decrypt`. `unwrap` is
`openssl::aes::unwrap_key` (`none` models the integrity-check failure);
the output buffer of `key_len` bytes makes openssl reject an encrypted
key longer than `key_len + 8` bytes, and is truncated to the count
actually written, i.e. exactly the unwrap output. -/
def pbes2DecryptInner
    (pbkdf2 : List Nat → List Nat → Nat → HashAlgorithm → Nat → List Nat)
    (unwrap : List Nat → List Nat → Option (List Nat))
    (d : Pbes2HmacJweDecrypter) (header : JsonMap)
    (encrypted_key : Option (List Nat)) (key_len : Nat) :
    Except AnyErr (List Nat) :=
  match encrypted_key with
  | none => Except.error (AnyErr.msg "A encrypted_key value is required.")
  | some ek =>
  match pbes2ReadP2s header with
  | Except.error e0 => Except.error e0
  | Except.ok p2s =>
  match pbes2ReadP2c header with
  | Except.error e0 => Except.error e0
  | Except.ok p2c =>
  if aesKeyLenOk (pbkdf2 d.private_key (pbes2Salt d.algorithm p2s) p2c
      d.algorithm.hash_algorithm d.algorithm.derived_key_len) then
    if key_len + 8 < ek.length then
      Except.error (AnyErr.msg "Failed to unwrap a key.")
    else
      match unwrap (pbkdf2 d.private_key (pbes2Salt d.algorithm p2s) p2c
          d.algorithm.hash_algorithm d.algorithm.derived_key_len) ek with
      | none => Except.error (AnyErr.msg "Failed to unwrap a key.")
      | some key => Except.ok key
  else Except.error (AnyErr.msg "Failed to set a decryption key.")

/-- `Pbes2HmacJweDecrypter::decrypt`. -/
def pbes2_decrypt
    (pbkdf2 : List Nat → List Nat → Nat → HashAlgorithm → Nat → List Nat)
    (unwrap : List Nat → List Nat → Option (List Nat))
    (d : Pbes2HmacJweDecrypter) (header : JsonMap)
    (encrypted_key : Option (List Nat)) (key_len : Nat) :
    Except JoseError (List Nat) :=
  wrapJweFormat (pbes2DecryptInner pbkdf2 unwrap d header encrypted_key key_len)


theorem wrapKeyFormat_ok {α : Type} {x : Except AnyErr α} {a : α} :
    wrapKeyFormat x = Except.ok a ↔ x = Except.ok a := by
  cases x with
  | ok b => simp [wrapKeyFormat]
  | error y => simp [wrapKeyFormat]

theorem wrapKeyFormat_error {α : Type} {x : Except AnyErr α} {err : JoseError}
    (h : wrapKeyFormat x = Except.error err) :
    ∃ m, err = JoseError.InvalidKeyFormat m := by
  cases x with
  | ok b => exact absurd h (by simp [wrapKeyFormat])
  | error y =>
      unfold wrapKeyFormat at h
      injection h with h1
      exact ⟨renderAny y, h1.symm⟩

theorem wrapJweFormat_error {α : Type} {x : Except AnyErr α} {err : JoseError}
    (h : wrapJweFormat x = Except.error err) :
    ∃ m, err = JoseError.InvalidJweFormat m := by
  cases x with
  | ok b => exact absurd h (by simp [wrapJweFormat])
  | error y =>
      unfold wrapJweFormat at h
      injection h with h1
      exact ⟨renderAny y, h1.symm⟩

theorem strBytes_bytesToString {bs : List Nat} (h : ∀ b ∈ bs, b < 256) :
    strBytes (bytesToString bs) = bs := by
  unfold strBytes bytesToString
  show (bs.map Char.ofNat).map Char.toNat = bs
  rw [List.map_map]
  have hid : ∀ b ∈ bs, (Char.toNat ∘ Char.ofNat) b = b := by
    intro b hb
    have hv : b.isValidChar := Or.inl (by have := h b hb; omega)
    simp [Function.comp, Char.ofNat, hv, Char.ofNatAux, Char.toNat,
      UInt32.toNat, BitVec.toNat_ofNatLt]
  rw [List.map_congr_left hid]
  simp

theorem b64Encode_lt_256 {bs : List Nat} : ∀ c ∈ b64Encode bs, c < 256 := by
  intro c hc
  have hmem := b64Encode_mem_alphabet c hc
  have hall : ∀ x ∈ b64Alphabet, x < 256 := by decide
  exact hall c hmem

theorem pbes2ResolveP2s_ok {randSalt : List Nat} {header h1 : JsonMap}
    {p2s : List Nat}
    (hsaltlen : 8 ≤ randSalt.length) (hsaltbytes : ∀ b ∈ randSalt, b < 256)
    (h : pbes2ResolveP2s randSalt header = Except.ok (p2s, h1)) :
    (∃ s, mapGet h1 "p2s" = some (Json.str s) ∧
      b64Decode (strBytes s) = some p2s) ∧
    8 ≤ p2s.length ∧
    ∀ k, k ≠ "p2s" → mapGet h1 k = mapGet header k := by
  unfold pbes2ResolveP2s at h
  split at h
  · rename_i val hget
    split at h
    · exact Except.noConfusion h
    · rename_i p2s0 hdec
      split at h
      · exact Except.noConfusion h
      · rename_i hlen
        injection h with h2
        injection h2 with hp2s hh1
        subst hp2s
        subst hh1
        exact ⟨⟨val, hget, hdec⟩, by omega, fun k _ => rfl⟩
  · exact Except.noConfusion h
  · rename_i hget
    injection h with h2
    injection h2 with hp2s hh1
    subst hp2s
    subst hh1
    refine ⟨⟨bytesToString (b64Encode randSalt), mapGet_mapInsert_self _ _ _, ?_⟩,
      hsaltlen, ?_⟩
    · rw [strBytes_bytesToString b64Encode_lt_256]
      exact b64Decode_b64Encode hsaltbytes
    · intro k hk
      exact mapGet_mapInsert_ne _ _ _ _ hk

theorem pbes2ResolveP2c_ok {iter : Nat} {header h2 : JsonMap} {p2c : Nat}
    (h : pbes2ResolveP2c iter header = Except.ok (p2c, h2)) :
    (∃ n : Int, mapGet h2 "p2c" = some (Json.num n) ∧ 0 ≤ n ∧ n.toNat = p2c) ∧
    ∀ k, k ≠ "p2c" → mapGet h2 k = mapGet header k := by
  unfold pbes2ResolveP2c at h
  split at h
  · rename_i n hget
    split at h
    · rename_i hpos
      injection h with h3
      injection h3 with hp hh
      subst hp
      subst hh
      exact ⟨⟨n, hget, hpos, rfl⟩, fun k _ => rfl⟩
    · exact Except.noConfusion h
  · exact Except.noConfusion h
  · rename_i hget
    injection h with h3
    injection h3 with hp hh
    subst hp
    subst hh
    refine ⟨⟨Int.ofNat iter, mapGet_mapInsert_self _ _ _,
      Int.natCast_nonneg iter, by simp⟩, ?_⟩
    intro k hk
    exact mapGet_mapInsert_ne _ _ _ _ hk

theorem pbes2ReadP2s_of {header : JsonMap} {s : String} {p2s : List Nat}
    (hs : mapGet header "p2s" = some (Json.str s))
    (hd : b64Decode (strBytes s) = some p2s) (hl : 8 ≤ p2s.length) :
    pbes2ReadP2s header = Except.ok p2s := by
  unfold pbes2ReadP2s
  rw [hs]
  show (match b64Decode (strBytes s) with
    | none => Except.error (AnyErr.msg "invalid base64")
    | some p2s =>
        if p2s.length < 8 then
          Except.error
            (AnyErr.msg "The decoded value of p2s header claim must be 8 or more.")
        else Except.ok p2s) = _
  rw [hd]
  show (if p2s.length < 8 then Except.error
      (AnyErr.msg "The decoded value of p2s header claim must be 8 or more.")
    else Except.ok p2s) = _
  rw [if_neg (by omega)]

theorem pbes2ReadP2c_of {header : JsonMap} {n : Int}
    (hn : mapGet header "p2c" = some (Json.num n)) (h0 : 0 ≤ n) :
    pbes2ReadP2c header = Except.ok n.toNat := by
  unfold pbes2ReadP2c
  rw [hn]
  show (if 0 ≤ n then Except.ok n.toNat else Except.error
    (AnyErr.msg "Overflow u64 value.")) = _
  rw [if_pos h0]

/-- Claim C6: for each PBES2-HMAC-AESKW variant and every non-empty
password key, a successful `encrypt(header, key_len)` returns the
generated content-encryption key and its wrapped form, and `decrypt` on
the mutated header, the wrapped key and the same `key_len` returns a
key equal to the generated one; the mutated header contains valid
`p2s`, `p2c` and `alg` claims as an observable side effect. The PBKDF2
primitive is shared (deterministic), and the AES key-wrap pair is
assumed to satisfy the wrap/unwrap inverse and length laws of RFC 3394. -/
theorem C6_pbes2_roundtrip
    (pbkdf2 : List Nat → List Nat → Nat → HashAlgorithm → Nat → List Nat)
    (wrap unwrap : List Nat → List Nat → Option (List Nat))
    (randSalt randKey : List Nat)
    (e : Pbes2HmacJweEncrypter) (d : Pbes2HmacJweDecrypter)
    (header : JsonMap) (key_len : Nat)
    (key : List Nat) (ekOpt : Option (List Nat)) (headerOut : JsonMap)
    (halg : d.algorithm = e.algorithm)
    (hkey : d.private_key = e.private_key)
    (hpw : e.private_key ≠ [])
    (hinv : ∀ kek data w, wrap kek data = some w → unwrap kek w = some data)
    (hwlen : ∀ kek data w, wrap kek data = some w → w.length = data.length + 8)
    (hkeylen : randKey.length = key_len)
    (hsaltlen : 8 ≤ randSalt.length)
    (hsaltbytes : ∀ b ∈ randSalt, b < 256)
    (henc : pbes2_encrypt pbkdf2 wrap randSalt randKey e header key_len =
      Except.ok (key, ekOpt, headerOut)) :
    key = randKey ∧
    (∃ ek, ekOpt = some ek ∧
      pbes2_decrypt pbkdf2 unwrap d headerOut (some ek) key_len =
        Except.ok key) ∧
    (∃ s p2s, mapGet headerOut "p2s" = some (Json.str s) ∧
      b64Decode (strBytes s) = some p2s ∧ 8 ≤ p2s.length) ∧
    (∃ n : Int, mapGet headerOut "p2c" = some (Json.num n) ∧ 0 ≤ n) ∧
    mapGet headerOut "alg" = some (Json.str e.algorithm.name) := by
  unfold pbes2_encrypt at henc
  rw [wrapKeyFormat_ok] at henc
  unfold pbes2EncryptInner at henc
  split at henc
  · exact Except.noConfusion henc
  · rename_i p2s header1 hres
    unfold pbes2EncryptStep2 at henc
    split at henc
    · exact Except.noConfusion henc
    · rename_i p2c header2 hres2
      split at henc
      · rename_i haes
        split at henc
        · exact Except.noConfusion henc
        · rename_i w hwrap
          injection henc with h1
          injection h1 with hkeyeq h2
          injection h2 with hekeq hhout
          subst hkeyeq
          subst hekeq
          subst hhout
          obtain ⟨⟨s, hs, hdec⟩, hp2slen, hpres1⟩ :=
            pbes2ResolveP2s_ok hsaltlen hsaltbytes hres
          obtain ⟨⟨n, hn, hnpos, hntoNat⟩, hpres2⟩ := pbes2ResolveP2c_ok hres2
          have hsOut : mapGet (mapInsert header2 "alg"
              (Json.str e.algorithm.name)) "p2s" = some (Json.str s) := by
            rw [mapGet_mapInsert_ne _ _ _ _ (by decide),
              hpres2 "p2s" (by decide), hs]
          have hnOut : mapGet (mapInsert header2 "alg"
              (Json.str e.algorithm.name)) "p2c" = some (Json.num n) := by
            rw [mapGet_mapInsert_ne _ _ _ _ (by decide), hn]
          refine ⟨rfl, ⟨w, rfl, ?_⟩,
            ⟨s, p2s, hsOut, hdec, hp2slen⟩, ⟨n, hnOut, hnpos⟩,
            mapGet_mapInsert_self _ _ _⟩
          unfold pbes2_decrypt pbes2DecryptInner
          rw [pbes2ReadP2s_of hsOut hdec hp2slen,
            pbes2ReadP2c_of hnOut hnpos]
          show wrapJweFormat (match Except.ok (Int.toNat n) with
            | Except.error e0 => Except.error e0
            | Except.ok p2c2 =>
              if aesKeyLenOk (pbkdf2 d.private_key
                  (pbes2Salt d.algorithm p2s) p2c2 d.algorithm.hash_algorithm
                  d.algorithm.derived_key_len) then
                if key_len + 8 < w.length then
                  Except.error (AnyErr.msg "Failed to unwrap a key.")
                else
                  match unwrap (pbkdf2 d.private_key
                      (pbes2Salt d.algorithm p2s) p2c2
                      d.algorithm.hash_algorithm
                      d.algorithm.derived_key_len) w with
                  | none => Except.error (AnyErr.msg "Failed to unwrap a key.")
                  | some key2 => Except.ok key2
              else Except.error
                (AnyErr.msg "Failed to set a decryption key.")) = _
          rw [halg, hkey, hntoNat]
          show wrapJweFormat (
            if aesKeyLenOk (pbkdf2 e.private_key
                (pbes2Salt e.algorithm p2s) p2c e.algorithm.hash_algorithm
                e.algorithm.derived_key_len) then
              if key_len + 8 < w.length then
                Except.error (AnyErr.msg "Failed to unwrap a key.")
              else
                match unwrap (pbkdf2 e.private_key
                    (pbes2Salt e.algorithm p2s) p2c
                    e.algorithm.hash_algorithm
                    e.algorithm.derived_key_len) w with
                | none => Except.error (AnyErr.msg "Failed to unwrap a key.")
                | some key2 => Except.ok key2
            else Except.error
              (AnyErr.msg "Failed to set a decryption key.")) = _
          rw [if_pos haes]
          have hwl : w.length = key_len + 8 := by
            rw [hwlen _ _ _ hwrap, hkeylen]
          rw [if_neg (by omega), hinv _ _ _ hwrap]
          rfl
      · exact Except.noConfusion henc


/-- Claim C6 witness: a concrete run of all the pieces with toy
primitive instantiations satisfying the stated laws. -/
theorem C6_pbes2_roundtrip_witness :
    pbes2_encrypt (fun _ _ _ _ len => List.replicate len 0)
        (fun _ data => some (data ++ List.replicate 8 0))
        [1, 2, 3, 4, 5, 6, 7, 8] [5, 6]
        ⟨Pbes2HmacJweAlgorithm.Pbes2HS256A128Kw, [9], 8, 1000, none⟩ [] 2 =
      Except.ok ([5, 6], some [5, 6, 0, 0, 0, 0, 0, 0, 0, 0],
        [("p2s", Json.str "AQIDBAUGBwg"), ("p2c", Json.num 1000),
         ("alg", Json.str "PBES2-HS256+A128KW")]) ∧
    (∃ ek, (some [5, 6, 0, 0, 0, 0, 0, 0, 0, 0] : Option (List Nat)) = some ek ∧
      pbes2_decrypt (fun _ _ _ _ len => List.replicate len 0)
        (fun _ c => some (c.take (c.length - 8)))
        ⟨Pbes2HmacJweAlgorithm.Pbes2HS256A128Kw, [9], none⟩
        [("p2s", Json.str "AQIDBAUGBwg"), ("p2c", Json.num 1000),
         ("alg", Json.str "PBES2-HS256+A128KW")] (some ek) 2 =
        Except.ok [5, 6]) ∧
    (∃ s p2s, mapGet [("p2s", Json.str "AQIDBAUGBwg"), ("p2c", Json.num 1000),
         ("alg", Json.str "PBES2-HS256+A128KW")] "p2s" = some (Json.str s) ∧
      b64Decode (strBytes s) = some p2s ∧ 8 ≤ p2s.length) ∧
    mapGet [("p2s", Json.str "AQIDBAUGBwg"), ("p2c", Json.num 1000),
        ("alg", Json.str "PBES2-HS256+A128KW")] "alg" =
      some (Json.str "PBES2-HS256+A128KW") := by
  have hinv : ∀ kek data w : List Nat,
      (fun _ data => some (data ++ List.replicate 8 0)) kek data = some w →
      (fun _ c => some (List.take (c.length - 8) c)) kek w = some data := by
    intro kek data w h
    injection h with h1
    subst h1
    simp
  have hwlen : ∀ kek data w : List Nat,
      (fun _ data => some (data ++ List.replicate 8 0)) kek data = some w →
      w.length = data.length + 8 := by
    intro kek data w h
    injection h with h1
    subst h1
    simp
  have henc : pbes2_encrypt (fun _ _ _ _ len => List.replicate len 0)
      (fun _ data => some (data ++ List.replicate 8 0))
      [1, 2, 3, 4, 5, 6, 7, 8] [5, 6]
      ⟨Pbes2HmacJweAlgorithm.Pbes2HS256A128Kw, [9], 8, 1000, none⟩ [] 2 =
      Except.ok ([5, 6], some [5, 6, 0, 0, 0, 0, 0, 0, 0, 0],
        [("p2s", Json.str "AQIDBAUGBwg"), ("p2c", Json.num 1000),
         ("alg", Json.str "PBES2-HS256+A128KW")]) := rfl
  have h := C6_pbes2_roundtrip (fun _ _ _ _ len => List.replicate len 0)
      (fun _ data => some (data ++ List.replicate 8 0))
      (fun _ c => some (List.take (c.length - 8) c))
      [1, 2, 3, 4, 5, 6, 7, 8] [5, 6]
      ⟨Pbes2HmacJweAlgorithm.Pbes2HS256A128Kw, [9], 8, 1000, none⟩
      ⟨Pbes2HmacJweAlgorithm.Pbes2HS256A128Kw, [9], none⟩ [] 2
      [5, 6] (some [5, 6, 0, 0, 0, 0, 0, 0, 0, 0])
      [("p2s", Json.str "AQIDBAUGBwg"), ("p2c", Json.num 1000),
       ("alg", Json.str "PBES2-HS256+A128KW")]
      rfl rfl (by simp) hinv hwlen rfl (by decide) (by decide) henc
  exact ⟨henc, h.2.1, h.2.2.1, h.2.2.2.2⟩

/-- Claim C10: every failure of `Pbes2HmacJweEncrypter::encrypt` carries
the kind `InvalidKeyFormat`, and every failure of
`Pbes2HmacJweDecrypter::decrypt` carries the kind `InvalidJweFormat`;
in particular a non-string `p2s`, a too-short `p2s` and a non-numeric
`p2c` are such failures on each side (the failed-unwrap case on the
decrypt side is covered by the general statement). -/
theorem C10_error_kinds :
    (∀ pbkdf2 wrap randSalt randKey e header key_len err,
        pbes2_encrypt pbkdf2 wrap randSalt randKey e header key_len =
          Except.error err → ∃ m, err = JoseError.InvalidKeyFormat m) ∧
    (∀ pbkdf2 unwrap d header ek key_len err,
        pbes2_decrypt pbkdf2 unwrap d header ek key_len = Except.error err →
          ∃ m, err = JoseError.InvalidJweFormat m) ∧
    (∀ pbkdf2 wrap randSalt randKey e header key_len v,
        mapGet header "p2s" = some v → (∀ s, v ≠ Json.str s) →
        pbes2_encrypt pbkdf2 wrap randSalt randKey e header key_len =
          Except.error
            (JoseError.InvalidKeyFormat "The p2s header claim must be string.")) ∧
    (∀ pbkdf2 wrap randSalt randKey e header key_len s p2s,
        mapGet header "p2s" = some (Json.str s) →
        b64Decode (strBytes s) = some p2s → p2s.length < 8 →
        pbes2_encrypt pbkdf2 wrap randSalt randKey e header key_len =
          Except.error (JoseError.InvalidKeyFormat
            "The decoded value of p2s header claim must be 8 or more.")) ∧
    (∀ pbkdf2 wrap randSalt randKey e header key_len v,
        mapGet header "p2s" = none → mapGet header "p2c" = some v →
        (∀ n, v ≠ Json.num n) →
        pbes2_encrypt pbkdf2 wrap randSalt randKey e header key_len =
          Except.error
            (JoseError.InvalidKeyFormat "The apv header claim must be string.")) ∧
    (∀ pbkdf2 unwrap d header ek key_len v,
        mapGet header "p2s" = some v → (∀ s, v ≠ Json.str s) →
        pbes2_decrypt pbkdf2 unwrap d header (some ek) key_len =
          Except.error
            (JoseError.InvalidJweFormat "The p2s header claim must be string.")) ∧
    (∀ pbkdf2 unwrap d header ek key_len s p2s,
        mapGet header "p2s" = some (Json.str s) →
        b64Decode (strBytes s) = some p2s → p2s.length < 8 →
        pbes2_decrypt pbkdf2 unwrap d header (some ek) key_len =
          Except.error (JoseError.InvalidJweFormat
            "The decoded value of p2s header claim must be 8 or more.")) ∧
    (∀ pbkdf2 unwrap d header ek key_len,
        mapGet header "p2s" = none →
        pbes2_decrypt pbkdf2 unwrap d header (some ek) key_len =
          Except.error
            (JoseError.InvalidJweFormat "The p2s header claim is required.")) := by
  refine ⟨?_, ?_, ?_, ?_, ?_, ?_, ?_, ?_⟩
  · intro pbkdf2 wrap randSalt randKey e header key_len err h
    exact wrapKeyFormat_error h
  · intro pbkdf2 unwrap d header ek key_len err h
    exact wrapJweFormat_error h
  · intro pbkdf2 wrap randSalt randKey e header key_len v hv hns
    unfold pbes2_encrypt pbes2EncryptInner pbes2ResolveP2s
    rw [hv]
    cases v with
    | str s => exact absurd rfl (hns s)
    | null => rfl
    | bool b => rfl
    | num n => rfl
    | arr xs => rfl
    | obj fs => rfl
  · intro pbkdf2 wrap randSalt randKey e header key_len s p2s hv hd hl
    have hres : pbes2ResolveP2s randSalt header = Except.error (AnyErr.msg
        "The decoded value of p2s header claim must be 8 or more.") := by
      unfold pbes2ResolveP2s
      rw [hv]
      show (match b64Decode (strBytes s) with
        | none => Except.error (AnyErr.msg "invalid base64")
        | some p2s =>
            if p2s.length < 8 then
              Except.error (AnyErr.msg
                "The decoded value of p2s header claim must be 8 or more.")
            else Except.ok (p2s, header)) = _
      rw [hd]
      show (if p2s.length < 8 then
          Except.error (AnyErr.msg
            "The decoded value of p2s header claim must be 8 or more.")
        else Except.ok (p2s, header)) = _
      rw [if_pos hl]
    unfold pbes2_encrypt pbes2EncryptInner
    rw [hres]
    rfl
  · intro pbkdf2 wrap randSalt randKey e header key_len v hs hv hnn
    have h1 : pbes2ResolveP2s randSalt header = Except.ok (randSalt,
        mapInsert header "p2s"
          (Json.str (bytesToString (b64Encode randSalt)))) := by
      unfold pbes2ResolveP2s
      rw [hs]
    have h2 : mapGet (mapInsert header "p2s"
        (Json.str (bytesToString (b64Encode randSalt)))) "p2c" = some v := by
      rw [mapGet_mapInsert_ne _ _ _ _ (by decide), hv]
    have hres2 : pbes2ResolveP2c e.iter_count (mapInsert header "p2s"
        (Json.str (bytesToString (b64Encode randSalt)))) =
        Except.error (AnyErr.msg "The apv header claim must be string.") := by
      unfold pbes2ResolveP2c
      rw [h2]
      cases v with
      | num n => exact absurd rfl (hnn n)
      | null => rfl
      | bool b => rfl
      | str s => rfl
      | arr xs => rfl
      | obj fs => rfl
    unfold pbes2_encrypt pbes2EncryptInner
    rw [h1]
    show wrapKeyFormat (pbes2EncryptStep2 pbkdf2 wrap randKey e randSalt
      (mapInsert header "p2s"
        (Json.str (bytesToString (b64Encode randSalt))))) = _
    unfold pbes2EncryptStep2
    rw [hres2]
    rfl
  · intro pbkdf2 unwrap d header ek key_len v hv hns
    unfold pbes2_decrypt pbes2DecryptInner pbes2ReadP2s
    rw [hv]
    cases v with
    | str s => exact absurd rfl (hns s)
    | null => rfl
    | bool b => rfl
    | num n => rfl
    | arr xs => rfl
    | obj fs => rfl
  · intro pbkdf2 unwrap d header ek key_len s p2s hv hd hl
    have hread : pbes2ReadP2s header = Except.error (AnyErr.msg
        "The decoded value of p2s header claim must be 8 or more.") := by
      unfold pbes2ReadP2s
      rw [hv]
      show (match b64Decode (strBytes s) with
        | none => Except.error (AnyErr.msg "invalid base64")
        | some p2s =>
            if p2s.length < 8 then
              Except.error (AnyErr.msg
                "The decoded value of p2s header claim must be 8 or more.")
            else Except.ok p2s) = _
      rw [hd]
      show (if p2s.length < 8 then
          Except.error (AnyErr.msg
            "The decoded value of p2s header claim must be 8 or more.")
        else Except.ok p2s) = _
      rw [if_pos hl]
    unfold pbes2_decrypt pbes2DecryptInner
    rw [hread]
    rfl
  · intro pbkdf2 unwrap d header ek key_len hv
    have hread : pbes2ReadP2s header = Except.error
        (AnyErr.msg "The p2s header claim is required.") := by
      unfold pbes2ReadP2s
      rw [hv]
    unfold pbes2_decrypt pbes2DecryptInner
    rw [hread]
    rfl

/-- Claim C10 witness: concrete malformed headers on each side, plus a
failed unwrap reported as `InvalidJweFormat`. -/
theorem C10_error_kinds_witness :
    pbes2_encrypt (fun _ _ _ _ len => List.replicate len 0)
        (fun _ data => some (data ++ List.replicate 8 0)) [] []
        ⟨Pbes2HmacJweAlgorithm.Pbes2HS256A128Kw, [9], 8, 1000, none⟩
        [("p2s", Json.num 3)] 2 =
      Except.error
        (JoseError.InvalidKeyFormat "The p2s header claim must be string.") ∧
    pbes2_decrypt (fun _ _ _ _ len => List.replicate len 0)
        (fun _ _ => none)
        ⟨Pbes2HmacJweAlgorithm.Pbes2HS256A128Kw, [9], none⟩
        [("p2s", Json.num 3)] (some [0]) 2 =
      Except.error
        (JoseError.InvalidJweFormat "The p2s header claim must be string.") ∧
    pbes2_decrypt (fun _ _ _ _ len => List.replicate len 0)
        (fun _ _ => none)
        ⟨Pbes2HmacJweAlgorithm.Pbes2HS256A128Kw, [9], none⟩
        [("p2s", Json.str "AQIDBAUGBwg"), ("p2c", Json.num 1000)]
        (some [1, 2, 3, 4, 5, 6, 7, 8, 9, 10]) 2 =
      Except.error (JoseError.InvalidJweFormat "Failed to unwrap a key.") ∧
    (∃ m, (JoseError.InvalidJweFormat "Failed to unwrap a key.") =
      JoseError.InvalidJweFormat m) := by
  have hns : ∀ s, (Json.num 3) ≠ Json.str s := fun s h => Json.noConfusion h
  refine ⟨?_, ?_, rfl, ?_⟩
  · exact C10_error_kinds.2.2.1 (fun _ _ _ _ len => List.replicate len 0)
      (fun _ data => some (data ++ List.replicate 8 0)) [] []
      ⟨Pbes2HmacJweAlgorithm.Pbes2HS256A128Kw, [9], 8, 1000, none⟩
      [("p2s", Json.num 3)] 2 (Json.num 3) rfl hns
  · exact C10_error_kinds.2.2.2.2.2.1 (fun _ _ _ _ len => List.replicate len 0)
      (fun _ _ => none)
      ⟨Pbes2HmacJweAlgorithm.Pbes2HS256A128Kw, [9], none⟩
      [("p2s", Json.num 3)] [0] 2 (Json.num 3) rfl hns
  · exact C10_error_kinds.2.1 (fun _ _ _ _ len => List.replicate len 0)
      (fun _ _ => none)
      ⟨Pbes2HmacJweAlgorithm.Pbes2HS256A128Kw, [9], none⟩
      [("p2s", Json.str "AQIDBAUGBwg"), ("p2c", Json.num 1000)]
      (some [1, 2, 3, 4, 5, 6, 7, 8, 9, 10]) 2 _ rfl


/-! ## Claim C3: tamper sensitivity of the signature segment -/

end Josekit
